import Mathlib

/-!
Shallow embedding of the moneywiz-api transaction decoding and validation
engine (src/moneywiz_api/model/transaction.py and investment_holding.py).

Modelling conventions:
* Python `Decimal` values are embedded as `ℚ` (exact arithmetic).
* A "row" is modelled per variant as a structure holding the values the
  constructor extracts from the raw column mapping.  Columns read through
  `RDH.get_decimal` / `RDH.get_datetime` are plain values (the coercion
  contract fails before the constructor runs if they are absent); columns
  read through `RDH.get_nullable_decimal` or by direct dictionary access
  are `Option`-valued, since a missing column yields a logical null.
* Each constructor is a function `Row → Option Instance` (or `Except` for
  the holding, whose enumeration decoder raises a distinct error): the
  fixes are applied to the extracted values, then `validate` runs; any
  failed assertion means no instance is produced.
* `pytest.approx(e, abs=t)` compares with `|actual - e| ≤ t`.
-/

namespace MoneywizApi

abbrev ID := Nat

def ABS_TOLERANCE : ℚ := 1/1000

def ABS_TOLERANCE2 : ℚ := 1/100

/-- Tolerant equality: `pytest.approx(expected, abs=tol)` applied to `actual`. -/
def approxAbs (actual expected tol : ℚ) : Bool :=
  decide (|actual - expected| ≤ tol)

/-- Fix shared by Deposit / Refund / Withdraw:
`if self.original_exchange_rate == Decimal(0): self.original_exchange_rate = None`. -/
def fixZeroRate (r : Option ℚ) : Option ℚ :=
  if r = some 0 then none else r

/-- Fix shared by TransferDeposit (`self.original_amount = abs(self.original_amount)`)
and TransferWithdraw (`self.recipient_amount = abs(self.recipient_amount)`). -/
def fixAbs (v : ℚ) : ℚ := |v|

/-- Python truthiness of an optional string (`assert self.from_symbol`). -/
def strTruthy : Option String → Bool
  | none => false
  | some s => s ≠ ""

/-- Fields the abstract `Transaction.__init__` extracts.  `ZRECONCILED` and
`ZDATE1`-derived values cannot make the base asserts fail (`== 1` always
yields a bool, `get_datetime` fails before construction when absent), so
only `description` (direct dictionary access, may be null) carries an
`Option`. -/
structure TransactionRowBase where
  reconciledRaw : Option Int -- ZRECONCILED
  amount : ℚ -- ZAMOUNT1 via get_decimal
  description : Option String -- ZDESC2
  datetimeVal : Int -- ZDATE1 via get_datetime
  notes : Option String -- ZNOTES1
deriving DecidableEq, Repr

/-- The asserts of `Transaction.__init__`: amount/datetime are non-null by
the coercion contract, `reconciled` is a bool; only `description` can fail. -/
def baseValidate (row : TransactionRowBase) : Bool :=
  row.description.isSome

/-! ### DepositTransaction (ENT 37) -/

structure DepositRow extends TransactionRowBase where
  account : Option ID -- ZACCOUNT2
  payee : Option ID -- ZPAYEE2
  original_currency : Option String -- ZORIGINALCURRENCY
  original_amount : ℚ -- ZORIGINALAMOUNT via get_decimal
  original_exchange_rate : Option ℚ -- ZORIGINALEXCHANGERATE via get_nullable_decimal
deriving DecidableEq, Repr

structure DepositTransaction where
  account : Option ID
  amount : ℚ
  payee : Option ID
  original_currency : Option String
  original_amount : ℚ
  original_exchange_rate : Option ℚ
deriving DecidableEq, Repr

def DepositTransaction.validate (t : DepositTransaction) : Bool :=
  t.account.isSome &&
  t.original_currency.isSome &&
  decide (t.amount * t.original_amount > 0) && -- Same sign
  (match t.original_exchange_rate with
   | none => true
   | some r => approxAbs t.amount (t.original_amount * r) ABS_TOLERANCE)

/-- The DepositTransaction instance after field extraction and fixes. -/
def depositOf (row : DepositRow) : DepositTransaction :=
  { account := row.account
    amount := row.amount
    payee := row.payee
    original_currency := row.original_currency
    original_amount := row.original_amount
    -- Fixes
    original_exchange_rate := fixZeroRate row.original_exchange_rate }

def mkDeposit (row : DepositRow) : Option DepositTransaction :=
  if baseValidate row.toTransactionRowBase && (depositOf row).validate then
    some (depositOf row)
  else none

/-! ### InvestmentExchangeTransaction (ENT 38) -/

structure InvestmentExchangeRow extends TransactionRowBase where
  account : Option ID -- ZACCOUNT2
  from_investment_holding : Option ID -- ZFROMINVESTMENTHOLDING
  from_symbol : Option String -- ZFROMSYMBOL
  to_investment_holding : Option ID -- ZTOINVESTMENTHOLDING
  to_symbol : Option String -- ZTOSYMBOL
  from_number_of_shares : ℚ -- ZFROMNUMBEROFSHARES (direct access)
  to_number_of_shares : ℚ -- ZTONUMBEROFSHARES (direct access)
  fee : ℚ -- ZFEE2 via get_decimal
  original_fee : Option ℚ -- ZORIGINALFEE (direct access, may be null)
  original_fee_currency : Option String -- ZORIGINALFEECURRENCY
deriving DecidableEq, Repr

structure InvestmentExchangeTransaction where
  account : Option ID
  from_investment_holding : Option ID
  from_symbol : Option String
  to_investment_holding : Option ID
  to_symbol : Option String
  from_number_of_shares : ℚ
  to_number_of_shares : ℚ
  fee : ℚ
  original_fee : Option ℚ
  original_fee_currency : Option String
deriving DecidableEq, Repr

def InvestmentExchangeTransaction.validate (t : InvestmentExchangeTransaction) : Bool :=
  t.account.isSome &&
  t.from_investment_holding.isSome &&
  strTruthy t.from_symbol &&
  t.to_investment_holding.isSome &&
  strTruthy t.to_symbol &&
  decide (t.from_number_of_shares ≤ 0) &&
  decide (t.to_number_of_shares ≥ 0) &&
  t.original_fee.isSome &&
  (t.original_fee_currency = t.from_symbol || t.original_fee_currency = t.to_symbol) &&
  (!decide (t.fee ≠ 0) || decide (t.original_fee ≠ some 0))

/-- The fee-folding fixes: `self.from_number_of_shares += self.original_fee`
when the fee currency matches the source symbol, `elif` the destination
symbol fold into `to_number_of_shares`.  Adding an absent `original_fee`
is a construction failure in the source (TypeError), modelled as `none`. -/
def foldExchangeFee (row : InvestmentExchangeRow) : Option (ℚ × ℚ) :=
  if row.original_fee_currency = row.from_symbol then
    match row.original_fee with
    | some f => some (row.from_number_of_shares + f, row.to_number_of_shares)
    | none => none
  else if row.original_fee_currency = row.to_symbol then
    match row.original_fee with
    | some f => some (row.from_number_of_shares, row.to_number_of_shares + f)
    | none => none
  else
    some (row.from_number_of_shares, row.to_number_of_shares)

/-- The InvestmentExchangeTransaction instance, given the folded share
counts produced by `foldExchangeFee`. -/
def investmentExchangeOf (row : InvestmentExchangeRow) (fs ts : ℚ) :
    InvestmentExchangeTransaction :=
  { account := row.account
    from_investment_holding := row.from_investment_holding
    from_symbol := row.from_symbol
    to_investment_holding := row.to_investment_holding
    to_symbol := row.to_symbol
    from_number_of_shares := fs
    to_number_of_shares := ts
    fee := row.fee
    original_fee := row.original_fee
    original_fee_currency := row.original_fee_currency }

def mkInvestmentExchange (row : InvestmentExchangeRow) :
    Option InvestmentExchangeTransaction :=
  match foldExchangeFee row with
  | none => none
  | some (fs, ts) =>
    if baseValidate row.toTransactionRowBase &&
        (investmentExchangeOf row fs ts).validate then
      some (investmentExchangeOf row fs ts)
    else none

/-! ### InvestmentBuyTransaction (ENT 40) and InvestmentSellTransaction (ENT 41) -/

structure InvestmentBuyRow extends TransactionRowBase where
  account : Option ID -- ZACCOUNT2
  fee : ℚ -- ZFEE2 via get_decimal
  investment_holding : Option ID -- ZINVESTMENTHOLDING
  number_of_shares : ℚ -- ZNUMBEROFSHARES1 via get_decimal
  price_per_share : ℚ -- ZPRICEPERSHARE1 via get_decimal
  symbol : Option String -- ZSYMBOL1
deriving DecidableEq, Repr

structure InvestmentBuyTransaction where
  account : Option ID
  amount : ℚ
  fee : ℚ
  investment_holding : Option ID
  number_of_shares : ℚ
  price_per_share : ℚ
  symbol : Option String
deriving DecidableEq, Repr

/-- Fix shared by InvestmentBuy and InvestmentSell: `self.fee = max(self.fee, 0)`. -/
def fixFee (fee : ℚ) : ℚ := max fee 0

/-- The assertion
`abs(self.fee) == pytest.approx(0, abs=ABS_TOLERANCE) or self.fee > ABS_TOLERANCE`
shared by InvestmentBuy.validate and InvestmentSell.validate. -/
def feeTinyOrPositive (fee : ℚ) : Bool :=
  approxAbs |fee| 0 ABS_TOLERANCE || decide (fee > ABS_TOLERANCE)

def InvestmentBuyTransaction.validate (t : InvestmentBuyTransaction) : Bool :=
  t.account.isSome &&
  decide (t.amount ≤ 0) &&
  decide (t.fee ≥ 0) &&
  feeTinyOrPositive t.fee &&
  t.investment_holding.isSome &&
  decide (t.number_of_shares > 0) &&
  decide (t.price_per_share ≥ 0) &&
  approxAbs (-(t.number_of_shares * t.price_per_share + t.fee)) t.amount ABS_TOLERANCE &&
  t.symbol.isSome

/-- The InvestmentBuyTransaction instance after field extraction and fixes. -/
def investmentBuyOf (row : InvestmentBuyRow) : InvestmentBuyTransaction :=
  { account := row.account
    amount := row.amount
    fee := fixFee row.fee -- Fixes
    investment_holding := row.investment_holding
    number_of_shares := row.number_of_shares
    price_per_share := row.price_per_share
    symbol := row.symbol }

def mkInvestmentBuy (row : InvestmentBuyRow) : Option InvestmentBuyTransaction :=
  if baseValidate row.toTransactionRowBase && (investmentBuyOf row).validate then
    some (investmentBuyOf row)
  else none

structure InvestmentSellRow extends TransactionRowBase where
  account : Option ID
  fee : ℚ
  investment_holding : Option ID
  number_of_shares : ℚ
  price_per_share : ℚ
  symbol : Option String
deriving DecidableEq, Repr

structure InvestmentSellTransaction where
  account : Option ID
  amount : ℚ
  fee : ℚ
  investment_holding : Option ID
  number_of_shares : ℚ
  price_per_share : ℚ
  symbol : Option String
deriving DecidableEq, Repr

def InvestmentSellTransaction.validate (t : InvestmentSellTransaction) : Bool :=
  t.account.isSome &&
  decide (t.fee ≥ 0) &&
  feeTinyOrPositive t.fee &&
  t.investment_holding.isSome &&
  decide (t.number_of_shares > 0) &&
  decide (t.price_per_share ≥ 0) &&
  approxAbs (t.number_of_shares * t.price_per_share - t.fee) t.amount ABS_TOLERANCE &&
  t.symbol.isSome

/-- The InvestmentSellTransaction instance after field extraction and fixes. -/
def investmentSellOf (row : InvestmentSellRow) : InvestmentSellTransaction :=
  { account := row.account
    amount := row.amount
    fee := fixFee row.fee -- Fixes
    investment_holding := row.investment_holding
    number_of_shares := row.number_of_shares
    price_per_share := row.price_per_share
    symbol := row.symbol }

def mkInvestmentSell (row : InvestmentSellRow) : Option InvestmentSellTransaction :=
  if baseValidate row.toTransactionRowBase && (investmentSellOf row).validate then
    some (investmentSellOf row)
  else none

/-! ### TransferDepositTransaction (ENT 45) -/

structure TransferDepositRow extends TransactionRowBase where
  account : Option ID -- ZACCOUNT2
  investment_holding : Option ID -- ZINVESTMENTHOLDING
  number_of_shares : Option ℚ -- ZNUMBEROFSHARES1 via get_nullable_decimal
  price_per_share : Option ℚ -- ZPRICEPERSHARE1 via get_nullable_decimal
  symbol : Option String -- ZSYMBOL1
  sender_account : Option ID -- ZSENDERACCOUNT
  sender_transaction : Option ID -- ZSENDERTRANSACTION
  original_amount : ℚ -- ZORIGINALAMOUNT via get_decimal
  original_currency : Option String -- ZORIGINALCURRENCY
  sender_amount : ℚ -- ZORIGINALSENDERAMOUNT via get_decimal
  sender_currency : Option String -- ZORIGINALSENDERCURRENCY
  original_exchange_rate : ℚ -- ZORIGINALEXCHANGERATE via get_decimal
deriving DecidableEq, Repr

structure TransferDepositTransaction where
  account : Option ID
  amount : ℚ
  investment_holding : Option ID
  number_of_shares : Option ℚ
  price_per_share : Option ℚ
  symbol : Option String
  sender_account : Option ID
  sender_transaction : Option ID
  original_amount : ℚ
  original_currency : Option String
  sender_amount : ℚ
  sender_currency : Option String
  original_exchange_rate : ℚ
deriving DecidableEq, Repr

def TransferDepositTransaction.validate (t : TransferDepositTransaction) : Bool :=
  t.account.isSome &&
  decide (t.amount > 0) &&
  t.sender_account.isSome &&
  t.sender_transaction.isSome &&
  decide (t.original_amount > 0) &&
  t.original_currency.isSome &&
  decide (t.sender_amount ≤ 0) &&
  t.sender_currency.isSome &&
  (match t.investment_holding with
   | none => approxAbs t.amount t.original_amount ABS_TOLERANCE
   | some _ =>
     t.number_of_shares.isSome && t.price_per_share.isSome && t.symbol.isSome) &&
  approxAbs t.original_amount (-t.sender_amount * t.original_exchange_rate) ABS_TOLERANCE

/-- The TransferDepositTransaction instance after field extraction and fixes. -/
def transferDepositOf (row : TransferDepositRow) : TransferDepositTransaction :=
  { account := row.account
    amount := row.amount
    investment_holding := row.investment_holding
    number_of_shares := row.number_of_shares
    price_per_share := row.price_per_share
    symbol := row.symbol
    sender_account := row.sender_account
    sender_transaction := row.sender_transaction
    original_amount := fixAbs row.original_amount -- Fixes
    original_currency := row.original_currency
    sender_amount := row.sender_amount
    sender_currency := row.sender_currency
    original_exchange_rate := row.original_exchange_rate }

def mkTransferDeposit (row : TransferDepositRow) : Option TransferDepositTransaction :=
  if baseValidate row.toTransactionRowBase && (transferDepositOf row).validate then
    some (transferDepositOf row)
  else none

/-! ### TransferWithdrawTransaction (ENT 46) -/

structure TransferWithdrawRow extends TransactionRowBase where
  account : Option ID -- ZACCOUNT2
  fee : Option ℚ -- ZFEE2 via get_nullable_decimal
  investment_holding : Option ID -- ZINVESTMENTHOLDING
  number_of_shares : Option ℚ -- ZNUMBEROFSHARES1
  price_per_share : Option ℚ -- ZPRICEPERSHARE1
  symbol : Option String -- ZSYMBOL1
  recipient_account : Option ID -- ZRECIPIENTACCOUNT1
  recipient_transaction : Option ID -- ZRECIPIENTTRANSACTION
  original_amount : ℚ -- ZORIGINALAMOUNT via get_decimal
  original_currency : Option String -- ZORIGINALCURRENCY
  recipient_amount : ℚ -- ZORIGINALRECIPIENTAMOUNT via get_decimal
  recipient_currency : Option String -- ZORIGINALRECIPIENTCURRENCY
  original_fee : Option ℚ -- ZORIGINALFEE via get_nullable_decimal
  original_fee_currency : Option String -- ZORIGINALFEECURRENCY
  original_exchange_rate : ℚ -- ZORIGINALEXCHANGERATE via get_decimal
deriving DecidableEq, Repr

structure TransferWithdrawTransaction where
  account : Option ID
  amount : ℚ
  fee : Option ℚ
  investment_holding : Option ID
  number_of_shares : Option ℚ
  price_per_share : Option ℚ
  symbol : Option String
  recipient_account : Option ID
  recipient_transaction : Option ID
  original_amount : ℚ
  original_currency : Option String
  recipient_amount : ℚ
  recipient_currency : Option String
  original_fee : Option ℚ
  original_fee_currency : Option String
  original_exchange_rate : ℚ
deriving DecidableEq, Repr

/-- TransferWithdraw validation.  The final FX cross-check divides by
`original_exchange_rate`; `Decimal` division by zero raises in the source,
so a zero rate means the construction fails — modelled as the extra
`original_exchange_rate ≠ 0` conjunct guarding the division. -/
def TransferWithdrawTransaction.validate (t : TransferWithdrawTransaction) : Bool :=
  t.account.isSome &&
  decide (t.amount < 0) &&
  t.recipient_account.isSome &&
  t.recipient_transaction.isSome &&
  decide (t.original_amount < 0) &&
  t.original_currency.isSome &&
  decide (t.recipient_amount > 0) &&
  t.recipient_currency.isSome &&
  (match t.investment_holding with
   | none => decide (t.amount = t.original_amount) -- exact, not approx
   | some _ =>
     t.fee.isSome && t.number_of_shares.isSome && t.price_per_share.isSome &&
     t.original_fee_currency.isSome && t.symbol.isSome) &&
  decide (t.original_exchange_rate ≠ 0) &&
  approxAbs t.original_amount (-t.recipient_amount / t.original_exchange_rate)
    ABS_TOLERANCE

/-- The TransferWithdrawTransaction instance after field extraction and fixes. -/
def transferWithdrawOf (row : TransferWithdrawRow) : TransferWithdrawTransaction :=
  { account := row.account
    amount := row.amount
    fee := row.fee
    investment_holding := row.investment_holding
    number_of_shares := row.number_of_shares
    price_per_share := row.price_per_share
    symbol := row.symbol
    recipient_account := row.recipient_account
    recipient_transaction := row.recipient_transaction
    original_amount := row.original_amount
    original_currency := row.original_currency
    recipient_amount := fixAbs row.recipient_amount -- Fixes
    recipient_currency := row.recipient_currency
    original_fee := row.original_fee
    original_fee_currency := row.original_fee_currency
    original_exchange_rate := row.original_exchange_rate }

def mkTransferWithdraw (row : TransferWithdrawRow) : Option TransferWithdrawTransaction :=
  if baseValidate row.toTransactionRowBase && (transferWithdrawOf row).validate then
    some (transferWithdrawOf row)
  else none

/-! ### WithdrawTransaction (ENT 47) -/

structure WithdrawRow extends TransactionRowBase where
  account : Option ID -- ZACCOUNT2
  payee : Option ID -- ZPAYEE2
  original_currency : Option String -- ZORIGINALCURRENCY
  original_amount : ℚ -- ZORIGINALAMOUNT via get_decimal
  original_exchange_rate : Option ℚ -- ZORIGINALEXCHANGERATE via get_nullable_decimal
deriving DecidableEq, Repr

structure WithdrawTransaction where
  account : Option ID
  amount : ℚ
  payee : Option ID
  original_currency : Option String
  original_amount : ℚ
  original_exchange_rate : Option ℚ
deriving DecidableEq, Repr

/-- Withdraw sign fix:
`if self.amount * self.original_amount < 0: self.original_amount = -self.original_amount`. -/
def fixWithdrawSign (amount original_amount : ℚ) : ℚ :=
  if amount * original_amount < 0 then -original_amount else original_amount

def WithdrawTransaction.validate (t : WithdrawTransaction) : Bool :=
  t.account.isSome &&
  t.original_currency.isSome &&
  decide (t.amount * t.original_amount > 0) &&
  (match t.original_exchange_rate with
   | none => true
   | some r => approxAbs t.amount (t.original_amount * r) ABS_TOLERANCE2)

/-- The WithdrawTransaction instance after field extraction and fixes. -/
def withdrawOf (row : WithdrawRow) : WithdrawTransaction :=
  { account := row.account
    amount := row.amount
    payee := row.payee
    original_currency := row.original_currency
    -- Fixes
    original_amount := fixWithdrawSign row.amount row.original_amount
    original_exchange_rate := fixZeroRate row.original_exchange_rate }

def mkWithdraw (row : WithdrawRow) : Option WithdrawTransaction :=
  if baseValidate row.toTransactionRowBase && (withdrawOf row).validate then
    some (withdrawOf row)
  else none

/-! ### InvestmentHolding (ENT 24) -/

inductive DecodeError where
  | invalidEnumeration
  | invariantViolation
deriving DecidableEq, Repr

instance {ε α : Type} [DecidableEq ε] [DecidableEq α] : DecidableEq (Except ε α) :=
  fun a b =>
    match a, b with
    | .ok x, .ok y =>
      if h : x = y then .isTrue (by rw [h]) else .isFalse (by simp [h])
    | .error x, .error y =>
      if h : x = y then .isTrue (by rw [h]) else .isFalse (by simp [h])
    | .ok _, .error _ => .isFalse (by simp)
    | .error _, .ok _ => .isFalse (by simp)

structure InvestmentHoldingRow where
  account : Option ID -- ZINVESTMENTACCOUNT
  opening_number_of_shares : Option ℚ -- ZOPENNINGNUMBEROFSHARES via get_nullable_decimal
  number_of_shares : ℚ -- ZNUMBEROFSHARES via get_decimal
  symbol : Option String -- ZSYMBOL
  holding_type : Option String -- ZHOLDINGTYPE
  description : Option String -- ZDESC
  price_per_share_available_online_raw : Option Int -- ZISPRICEPERSHAREAVAILABLEONLINE
  investment_object_type_raw : Option Int -- ZINVESTMENTOBJECTTYPE
  cost_basis : ℚ -- ZCOSTBASISOFMISSINGOBSHARES via get_decimal
deriving DecidableEq, Repr

structure InvestmentHolding where
  account : Option ID
  opening_number_of_shares : Option ℚ
  number_of_shares : ℚ
  symbol : Option String
  holding_type : Option String
  description : Option String
  price_per_share_available_online : Bool
  investment_object_type : String
  cost_basis : ℚ
deriving DecidableEq, Repr

/-- The static `InvestmentHolding._convert_investment_object_type`:
`0 → "Investment"`, `1 → "Forex/Crypto"`, anything else a `RuntimeError`
(a fatal decode error, `InvalidEnumeration` in the spec taxonomy). -/
def convertInvestmentObjectType (ty : Option Int) :
    Except DecodeError String :=
  if ty = some 0 ∨ ty = some 1 then
    .ok (if ty = some 1 then "Forex/Crypto" else "Investment")
  else
    .error .invalidEnumeration

def InvestmentHolding.validate (h : InvestmentHolding) : Bool :=
  h.account.isSome &&
  h.symbol.isSome &&
  h.description.isSome

/-- The InvestmentHolding instance, given the decoded object type. -/
def investmentHoldingOf (row : InvestmentHoldingRow) (ty : String) :
    InvestmentHolding :=
  { account := row.account
    opening_number_of_shares := row.opening_number_of_shares
    number_of_shares := row.number_of_shares
    symbol := row.symbol
    holding_type := row.holding_type
    description := row.description
    price_per_share_available_online :=
      row.price_per_share_available_online_raw = some 1
    investment_object_type := ty
    cost_basis := row.cost_basis }

def mkInvestmentHolding (row : InvestmentHoldingRow) :
    Except DecodeError InvestmentHolding :=
  -- The enumeration decode happens during field extraction, before validate().
  match convertInvestmentObjectType row.investment_object_type_raw with
  | .error e => .error e
  | .ok ty =>
    if (investmentHoldingOf row ty).validate then .ok (investmentHoldingOf row ty)
    else .error .invariantViolation

/-! ### Concrete rows used by the theorems below -/

/-- InvestmentBuy example row: shares=10, price=50.00, fee=1.00, amount=-501.00. -/
def c1GoodRow : InvestmentBuyRow :=
  { reconciledRaw := some 1, amount := -501, description := some "buy"
    datetimeVal := 0, notes := none
    account := some 1, fee := 1, investment_holding := some 2
    number_of_shares := 10, price_per_share := 50, symbol := some "AAPL" }

/-- The same row with amount=-500.00, which must fail validation. -/
def c1BadRow : InvestmentBuyRow :=
  { c1GoodRow with amount := -500 }

/-- The instance `c1GoodRow` decodes to (fee clamp is a no-op here). -/
def c1GoodT : InvestmentBuyTransaction :=
  { account := some 1, amount := -501, fee := 1, investment_holding := some 2
    number_of_shares := 10, price_per_share := 50, symbol := some "AAPL" }

def c2Row : DepositRow :=
  { reconciledRaw := some 1, amount := 100, description := some "dep"
    datetimeVal := 0, notes := none
    account := some 1, payee := none, original_currency := some "USD"
    original_amount := 100, original_exchange_rate := some 1 }

def c2T : DepositTransaction :=
  { account := some 1, amount := 100, payee := none, original_currency := some "USD"
    original_amount := 100, original_exchange_rate := some 1 }

def c3Row : TransferDepositRow :=
  { reconciledRaw := some 1, amount := 100, description := some "tin"
    datetimeVal := 0, notes := none
    account := some 1, investment_holding := none, number_of_shares := none
    price_per_share := none, symbol := none
    sender_account := some 2, sender_transaction := some 3
    original_amount := -100, original_currency := some "USD"
    sender_amount := -100, sender_currency := some "USD"
    original_exchange_rate := 1 }

def c3T : TransferDepositTransaction :=
  { account := some 1, amount := 100, investment_holding := none
    number_of_shares := none, price_per_share := none, symbol := none
    sender_account := some 2, sender_transaction := some 3
    original_amount := 100, original_currency := some "USD"
    sender_amount := -100, sender_currency := some "USD"
    original_exchange_rate := 1 }

/-- TransferWithdraw row with no holding whose `amount` differs from
`original_amount` by 0.0005 — within the 0.001 tolerance, yet rejected by
the exact-equality check on line 526 of the source. -/
def c4CexRow : TransferWithdrawRow :=
  { reconciledRaw := some 1, amount := -2001/2000, description := some "tout"
    datetimeVal := 0, notes := none
    account := some 1, fee := none, investment_holding := none
    number_of_shares := none, price_per_share := none, symbol := none
    recipient_account := some 2, recipient_transaction := some 3
    original_amount := -1, original_currency := some "USD"
    recipient_amount := -1, recipient_currency := some "EUR"
    original_fee := none, original_fee_currency := none
    original_exchange_rate := 1 }

/-- The same row with `amount = original_amount` exactly, which decodes. -/
def c4OkRow : TransferWithdrawRow :=
  { c4CexRow with amount := -1 }

/-- Withdraw row whose raw `amount` and `original_amount` have opposite
signs, and whose FX product misses `amount` by 0.005 — more than 0.001,
within 0.01. -/
def c5Row : WithdrawRow :=
  { reconciledRaw := some 1, amount := 1, description := some "wd"
    datetimeVal := 0, notes := none
    account := some 1, payee := none, original_currency := some "USD"
    original_amount := -1, original_exchange_rate := some (201/200) }

def c6Row : InvestmentExchangeRow :=
  { reconciledRaw := some 1, amount := 0, description := some "xch"
    datetimeVal := 0, notes := none
    account := some 1, from_investment_holding := some 2
    from_symbol := some "USD", to_investment_holding := some 3
    to_symbol := some "EUR", from_number_of_shares := -10
    to_number_of_shares := 5, fee := 1, original_fee := some 1
    original_fee_currency := some "USD" }

def c6T : InvestmentExchangeTransaction :=
  { account := some 1, from_investment_holding := some 2
    from_symbol := some "USD", to_investment_holding := some 3
    to_symbol := some "EUR", from_number_of_shares := -9
    to_number_of_shares := 5, fee := 1, original_fee := some 1
    original_fee_currency := some "USD" }

/-- Holding row with `ZINVESTMENTOBJECTTYPE = 7` and a null symbol: the
symbol would fail validation, but the enumeration error wins because it is
raised during extraction. -/
def c7BadRow : InvestmentHoldingRow :=
  { account := some 1, opening_number_of_shares := none, number_of_shares := 5
    symbol := none, holding_type := none, description := some "h"
    price_per_share_available_online_raw := some 1
    investment_object_type_raw := some 7, cost_basis := 0 }

/-- A second bad-enumeration holding row, with otherwise valid fields. -/
def c7BadRow2 : InvestmentHoldingRow :=
  { c7BadRow with symbol := some "AAPL", investment_object_type_raw := some 3 }

def c9BuyRow : InvestmentBuyRow :=
  { reconciledRaw := some 1, amount := -500, description := some "buy"
    datetimeVal := 0, notes := none
    account := some 1, fee := -1, investment_holding := some 2
    number_of_shares := 10, price_per_share := 50, symbol := some "AAPL" }

def c9SellRow : InvestmentSellRow :=
  { reconciledRaw := some 1, amount := 499, description := some "sell"
    datetimeVal := 0, notes := none
    account := some 1, fee := 1, investment_holding := some 2
    number_of_shares := 10, price_per_share := 50, symbol := some "AAPL" }

def c10DepRow : DepositRow :=
  { reconciledRaw := some 1, amount := 0, description := some "dep"
    datetimeVal := 0, notes := none
    account := some 1, payee := none, original_currency := some "USD"
    original_amount := 5, original_exchange_rate := none }

def c10WdRow : WithdrawRow :=
  { reconciledRaw := some 1, amount := 5, description := some "wd"
    datetimeVal := 0, notes := none
    account := some 1, payee := none, original_currency := some "USD"
    original_amount := 0, original_exchange_rate := none }

/-! ### Helper lemmas -/

theorem ifBool_some_eq_some {α : Type} {c : Bool} {a t : α} :
    (if c = true then some a else none) = some t ↔ c = true ∧ a = t := by
  cases c <;> simp

theorem ifBool_some_eq_none {α : Type} {c : Bool} {a : α} :
    (if c = true then some a else none) = none ↔ c = false := by
  cases c <;> simp

theorem ifBool_some_isSome {α : Type} {c : Bool} {a : α} :
    (Option.isSome (if c = true then some a else none)) = c := by
  cases c <;> simp

/-! ### Claim theorems -/

/-- C8: the fix-up functions are idempotent: applying the zero-rate-to-null
normalization twice yields the same result as applying it once, and
applying the absolute-value normalization twice yields the same magnitude
as applying it once. -/
theorem fixups_idempotent (r : Option ℚ) (v : ℚ) :
    fixZeroRate (fixZeroRate r) = fixZeroRate r ∧ fixAbs (fixAbs v) = fixAbs v := by
  refine ⟨?_, by simp [fixAbs, abs_abs]⟩
  by_cases h : r = some 0
  · simp [fixZeroRate, h]
  · simp [fixZeroRate, h]

/-- C9: after the fee clamp `max(fee, 0)`, every fee satisfies the
"either tiny (close to 0) or positive" assertion shared by InvestmentBuy
and InvestmentSell validation, so its failure branch is unreachable and it
rejects no instance. -/
theorem fee_assertion_unreachable (f : ℚ) (rowB : InvestmentBuyRow)
    (rowS : InvestmentSellRow) :
    feeTinyOrPositive (fixFee f) = true ∧
    (∀ t, mkInvestmentBuy rowB = some t → feeTinyOrPositive t.fee = true) ∧
    (∀ t, mkInvestmentSell rowS = some t → feeTinyOrPositive t.fee = true) := by
  have key : ∀ g : ℚ, feeTinyOrPositive (fixFee g) = true := by
    intro g
    simp only [feeTinyOrPositive, fixFee, approxAbs, Bool.or_eq_true,
      decide_eq_true_eq]
    rcases le_or_lt (max g 0) ABS_TOLERANCE with h | h
    · exact Or.inl (by rw [sub_zero, abs_abs, abs_of_nonneg (le_max_right g 0)]; exact h)
    · exact Or.inr h
  refine ⟨key f, ?_, ?_⟩
  · intro t ht
    unfold mkInvestmentBuy at ht
    rw [ifBool_some_eq_some] at ht
    rw [← ht.2]
    exact key rowB.fee
  · intro t ht
    unfold mkInvestmentSell at ht
    rw [ifBool_some_eq_some] at ht
    rw [← ht.2]
    exact key rowS.fee

/-- C9 witness: a clamped negative fee passes the assertion, and decoded
Buy/Sell instances pass it. -/
theorem fee_assertion_unreachable_witness :
    feeTinyOrPositive (fixFee (-1)) = true ∧
    feeTinyOrPositive (investmentBuyOf c9BuyRow).fee = true ∧
    feeTinyOrPositive (investmentSellOf c9SellRow).fee = true :=
  ⟨(fee_assertion_unreachable (-1) c9BuyRow c9SellRow).1,
   (fee_assertion_unreachable (-1) c9BuyRow c9SellRow).2.1
     (investmentBuyOf c9BuyRow)
     (by
       norm_num [mkInvestmentBuy, investmentBuyOf, c9BuyRow, baseValidate,
         InvestmentBuyTransaction.validate, feeTinyOrPositive, approxAbs,
         fixFee, ABS_TOLERANCE]),
   (fee_assertion_unreachable (-1) c9BuyRow c9SellRow).2.2
     (investmentSellOf c9SellRow)
     (by
       norm_num [mkInvestmentSell, investmentSellOf, c9SellRow, baseValidate,
         InvestmentSellTransaction.validate, feeTinyOrPositive, approxAbs,
         fixFee, ABS_TOLERANCE])⟩

/-- C10: a Deposit or Withdraw row whose (post-fix) amount or
original_amount is exactly zero fails the strict same-sign check
`amount * original_amount > 0` and is rejected. -/
theorem deposit_withdraw_zero_rejected (rd : DepositRow) (rw : WithdrawRow)
    (hd : rd.amount = 0 ∨ rd.original_amount = 0)
    (hw : rw.amount = 0 ∨ rw.original_amount = 0) :
    mkDeposit rd = none ∧ mkWithdraw rw = none := by
  constructor
  · have hprod : ¬ ((depositOf rd).amount * (depositOf rd).original_amount > 0) := by
      rcases hd with h | h <;> simp [depositOf, h]
    unfold mkDeposit
    rw [ifBool_some_eq_none]
    unfold DepositTransaction.validate
    rw [decide_eq_false hprod]
    simp
  · have hprod : ¬ ((withdrawOf rw).amount * (withdrawOf rw).original_amount > 0) := by
      rcases hw with h | h <;> simp [withdrawOf, fixWithdrawSign, h]
    unfold mkWithdraw
    rw [ifBool_some_eq_none]
    unfold WithdrawTransaction.validate
    rw [decide_eq_false hprod]
    simp

/-- C10 witness: a zero-amount Deposit row and a zero-original Withdraw
row are both rejected. -/
theorem deposit_withdraw_zero_rejected_witness :
    (c10DepRow.amount = 0 ∨ c10DepRow.original_amount = 0) ∧
    (c10WdRow.amount = 0 ∨ c10WdRow.original_amount = 0) ∧
    (mkDeposit c10DepRow = none ∧ mkWithdraw c10WdRow = none) :=
  ⟨by decide, by decide,
   deposit_withdraw_zero_rejected c10DepRow c10WdRow (by decide) (by decide)⟩

/-- C1: every decoded InvestmentBuy satisfies
`|−(shares×price+fee) − amount| ≤ 0.001`, `shares > 0`, `price ≥ 0` and
`amount ≤ 0`; the example row with shares=10, price=50.00, fee=1.00,
amount=-501.00 decodes successfully, while the identical row with
amount=-500.00 fails validation. -/
theorem investmentBuy_invariants (row : InvestmentBuyRow)
    (t : InvestmentBuyTransaction) (h : mkInvestmentBuy row = some t) :
    (|-(t.number_of_shares * t.price_per_share + t.fee) - t.amount| ≤ ABS_TOLERANCE ∧
     t.number_of_shares > 0 ∧ t.price_per_share ≥ 0 ∧ t.amount ≤ 0) ∧
    Option.isSome (mkInvestmentBuy c1GoodRow) = true ∧
    mkInvestmentBuy c1BadRow = none := by
  refine ⟨?_, ?_, ?_⟩
  · unfold mkInvestmentBuy at h
    rw [ifBool_some_eq_some, Bool.and_eq_true] at h
    obtain ⟨⟨hbase, hval⟩, rfl⟩ := h
    unfold InvestmentBuyTransaction.validate at hval
    simp only [Bool.and_eq_true, decide_eq_true_eq, approxAbs] at hval
    obtain ⟨⟨⟨⟨⟨⟨⟨⟨hacc, ham⟩, hfee⟩, htiny⟩, hhold⟩, hsh⟩, hpr⟩, hapx⟩, hsym⟩ := hval
    exact ⟨hapx, hsh, hpr, ham⟩
  · norm_num [mkInvestmentBuy, investmentBuyOf, c1GoodRow, baseValidate,
      InvestmentBuyTransaction.validate, feeTinyOrPositive, approxAbs, fixFee,
      ABS_TOLERANCE]
  · norm_num [mkInvestmentBuy, investmentBuyOf, c1BadRow, c1GoodRow, baseValidate,
      InvestmentBuyTransaction.validate, feeTinyOrPositive, approxAbs, fixFee,
      ABS_TOLERANCE]

/-- C1 witness: the theorem applied to the example row. -/
theorem investmentBuy_invariants_witness :
    (|-((investmentBuyOf c1GoodRow).number_of_shares *
          (investmentBuyOf c1GoodRow).price_per_share +
          (investmentBuyOf c1GoodRow).fee) -
        (investmentBuyOf c1GoodRow).amount| ≤ ABS_TOLERANCE ∧
     (investmentBuyOf c1GoodRow).number_of_shares > 0 ∧
     (investmentBuyOf c1GoodRow).price_per_share ≥ 0 ∧
     (investmentBuyOf c1GoodRow).amount ≤ 0) ∧
    Option.isSome (mkInvestmentBuy c1GoodRow) = true ∧
    mkInvestmentBuy c1BadRow = none :=
  investmentBuy_invariants c1GoodRow (investmentBuyOf c1GoodRow)
    (by
      norm_num [mkInvestmentBuy, investmentBuyOf, c1GoodRow, baseValidate,
        InvestmentBuyTransaction.validate, feeTinyOrPositive, approxAbs, fixFee,
        ABS_TOLERANCE])

/-- C2: every decoded Deposit has `amount` and `original_amount` of the
same sign (positive product), and when an exchange rate is present,
`|amount − original_amount × rate| ≤ 0.001`. -/
theorem deposit_fx_invariants (row : DepositRow) (t : DepositTransaction)
    (h : mkDeposit row = some t) :
    t.amount * t.original_amount > 0 ∧
    (match t.original_exchange_rate with
     | none => True
     | some r => |t.amount - t.original_amount * r| ≤ ABS_TOLERANCE) := by
  unfold mkDeposit at h
  rw [ifBool_some_eq_some, Bool.and_eq_true] at h
  obtain ⟨⟨hbase, hval⟩, rfl⟩ := h
  unfold DepositTransaction.validate at hval
  simp only [Bool.and_eq_true, decide_eq_true_eq] at hval
  obtain ⟨⟨⟨hacc, hcur⟩, hprod⟩, hfx⟩ := hval
  refine ⟨hprod, ?_⟩
  rcases hr : (depositOf row).original_exchange_rate with _ | r
  · trivial
  · rw [hr] at hfx
    simpa [approxAbs] using hfx

/-- C2 witness: the theorem applied to a concrete Deposit row with a
non-null exchange rate. -/
theorem deposit_fx_invariants_witness :
    (depositOf c2Row).amount * (depositOf c2Row).original_amount > 0 ∧
    (match (depositOf c2Row).original_exchange_rate with
     | none => True
     | some r =>
       |(depositOf c2Row).amount - (depositOf c2Row).original_amount * r| ≤
         ABS_TOLERANCE) :=
  deposit_fx_invariants c2Row (depositOf c2Row)
    (by
      norm_num [mkDeposit, depositOf, c2Row, baseValidate, fixZeroRate,
        DepositTransaction.validate, approxAbs, ABS_TOLERANCE])

/-- C3: every decoded TransferDeposit has `amount > 0`, `original_amount > 0`
(after the absolute-value fix-up), always satisfies
`|original_amount − (−sender_amount × rate)| ≤ 0.001`, and when no
investment holding is present additionally
`|amount − original_amount| ≤ 0.001`. -/
theorem transferDeposit_invariants (row : TransferDepositRow)
    (t : TransferDepositTransaction) (h : mkTransferDeposit row = some t) :
    t.amount > 0 ∧ t.original_amount > 0 ∧
    |t.original_amount - (-t.sender_amount * t.original_exchange_rate)| ≤
      ABS_TOLERANCE ∧
    (t.investment_holding = none → |t.amount - t.original_amount| ≤ ABS_TOLERANCE) := by
  unfold mkTransferDeposit at h
  rw [ifBool_some_eq_some, Bool.and_eq_true] at h
  obtain ⟨⟨hbase, hval⟩, rfl⟩ := h
  unfold TransferDepositTransaction.validate at hval
  simp only [Bool.and_eq_true, decide_eq_true_eq] at hval
  obtain ⟨⟨⟨⟨⟨⟨⟨⟨⟨hacc, ham⟩, hsacc⟩, hstx⟩, hoam⟩, hocur⟩, hsam⟩, hscur⟩,
    hhold⟩, hfx⟩ := hval
  refine ⟨ham, hoam, by simpa [approxAbs] using hfx, ?_⟩
  intro hnone
  rw [hnone] at hhold
  simpa [approxAbs] using hhold

/-- C3 witness: the theorem applied to a concrete no-holding TransferDeposit
row whose raw `original_amount` is negative before the fix-up. -/
theorem transferDeposit_invariants_witness :
    (transferDepositOf c3Row).amount > 0 ∧
    (transferDepositOf c3Row).original_amount > 0 ∧
    |(transferDepositOf c3Row).original_amount -
        (-(transferDepositOf c3Row).sender_amount *
          (transferDepositOf c3Row).original_exchange_rate)| ≤ ABS_TOLERANCE ∧
    ((transferDepositOf c3Row).investment_holding = none →
      |(transferDepositOf c3Row).amount -
          (transferDepositOf c3Row).original_amount| ≤ ABS_TOLERANCE) :=
  transferDeposit_invariants c3Row (transferDepositOf c3Row)
    (by
      norm_num [mkTransferDeposit, transferDepositOf, c3Row, baseValidate,
        TransferDepositTransaction.validate, approxAbs, fixAbs, ABS_TOLERANCE])

/-- C5: for a Withdraw row whose raw `amount` and `original_amount` have
strictly opposite signs, the constructed instance's `original_amount` is
the negation of the raw extracted value, the same-sign check holds after
the fix-up, success is characterized by the FX check at the wider 0.01
absolute tolerance, and the concrete row `c5Row` — whose FX deviation is
0.005, above 0.001 — decodes. -/
theorem withdraw_sign_fixup (row : WithdrawRow)
    (hsign : row.amount * row.original_amount < 0) :
    (∀ t, mkWithdraw row = some t → t.original_amount = -row.original_amount) ∧
    row.amount * (-row.original_amount) > 0 ∧
    (Option.isSome (mkWithdraw row) = true ↔
      (baseValidate row.toTransactionRowBase = true ∧
       row.account.isSome = true ∧ row.original_currency.isSome = true ∧
       (match fixZeroRate row.original_exchange_rate with
        | none => True
        | some r => |row.amount - -row.original_amount * r| ≤ ABS_TOLERANCE2))) ∧
    (¬ |c5Row.amount - -c5Row.original_amount * (201/200 : ℚ)| ≤ ABS_TOLERANCE ∧
     Option.isSome (mkWithdraw c5Row) = true) := by
  have hfix : fixWithdrawSign row.amount row.original_amount = -row.original_amount := by
    unfold fixWithdrawSign
    rw [if_pos hsign]
  have hprod : row.amount * (-row.original_amount) > 0 := by
    have := neg_pos.mpr hsign
    simpa [mul_neg] using this
  refine ⟨?_, hprod, ?_, ?_, ?_⟩
  · intro t ht
    unfold mkWithdraw at ht
    rw [ifBool_some_eq_some] at ht
    rw [← ht.2]
    simp only [withdrawOf]
    exact hfix
  · unfold mkWithdraw
    rw [ifBool_some_isSome]
    unfold WithdrawTransaction.validate
    simp only [withdrawOf, hfix, Bool.and_eq_true, decide_eq_true_eq]
    constructor
    · rintro ⟨hb, ⟨⟨hacc, hcur⟩, _⟩, hm⟩
      refine ⟨hb, hacc, hcur, ?_⟩
      rcases hrr : fixZeroRate row.original_exchange_rate with _ | r
      · trivial
      · rw [hrr] at hm
        simpa [approxAbs] using hm
    · rintro ⟨hb, hacc, hcur, hm⟩
      refine ⟨hb, ⟨⟨hacc, hcur⟩, hprod⟩, ?_⟩
      rcases hrr : fixZeroRate row.original_exchange_rate with _ | r
      · simp
      · rw [hrr] at hm
        simpa [approxAbs] using hm
  · have habs : |(1 : ℚ)/200| = 1/200 := abs_of_pos (by norm_num)
    norm_num [c5Row, ABS_TOLERANCE, habs]
  · have habs : |(1 : ℚ)/200| = 1/200 := abs_of_pos (by norm_num)
    norm_num [mkWithdraw, withdrawOf, c5Row, baseValidate,
      WithdrawTransaction.validate, fixWithdrawSign, fixZeroRate, approxAbs,
      ABS_TOLERANCE2, habs]

/-- C5 witness: the theorem applied to `c5Row`, whose raw amounts have
opposite signs. -/
theorem withdraw_sign_fixup_witness :
    c5Row.amount * c5Row.original_amount < 0 ∧
    (∀ t, mkWithdraw c5Row = some t → t.original_amount = -c5Row.original_amount) :=
  ⟨by norm_num [c5Row],
   (withdraw_sign_fixup c5Row (by norm_num [c5Row])).1⟩

/-- C6: every decoded InvestmentExchange has its original fee currency
equal to one of the two symbols; when it equals the source symbol the fee
was folded into `from_number_of_shares`, when it instead equals the
destination symbol it was folded into `to_number_of_shares`; after the
folding `from_number_of_shares ≤ 0` and `to_number_of_shares ≥ 0`; and a
nonzero fee implies a nonzero original fee. -/
theorem investmentExchange_fee_folding (row : InvestmentExchangeRow)
    (t : InvestmentExchangeTransaction) (h : mkInvestmentExchange row = some t) :
    (t.original_fee_currency = t.from_symbol ∨
     t.original_fee_currency = t.to_symbol) ∧
    (∀ f, t.original_fee = some f →
      (t.original_fee_currency = t.from_symbol →
        t.from_number_of_shares = row.from_number_of_shares + f ∧
        t.to_number_of_shares = row.to_number_of_shares) ∧
      (t.original_fee_currency ≠ t.from_symbol →
        t.original_fee_currency = t.to_symbol →
        t.to_number_of_shares = row.to_number_of_shares + f ∧
        t.from_number_of_shares = row.from_number_of_shares)) ∧
    t.from_number_of_shares ≤ 0 ∧ t.to_number_of_shares ≥ 0 ∧
    (t.fee ≠ 0 → t.original_fee ≠ some 0) := by
  unfold mkInvestmentExchange at h
  rcases hfold : foldExchangeFee row with _ | ⟨fs, ts⟩
  all_goals rw [hfold] at h
  · exact absurd h (by simp)
  · rw [ifBool_some_eq_some, Bool.and_eq_true] at h
    obtain ⟨⟨hbase, hval⟩, rfl⟩ := h
    unfold InvestmentExchangeTransaction.validate at hval
    simp only [investmentExchangeOf, Bool.and_eq_true, Bool.or_eq_true,
      Bool.not_eq_true', decide_eq_true_eq, decide_eq_false_iff_not] at hval
    obtain ⟨⟨⟨⟨⟨⟨⟨⟨⟨hacc, hfh⟩, hfsym⟩, hth⟩, htsym⟩, hfsle⟩, htsge⟩, hofee⟩,
      hmem⟩, hfimp⟩ := hval
    simp only [investmentExchangeOf]
    refine ⟨hmem, ?_, hfsle, htsge, ?_⟩
    · intro f hf
      unfold foldExchangeFee at hfold
      split_ifs at hfold with hc1 hc2
      · rw [hf] at hfold
        simp only [Option.some.injEq, Prod.mk.injEq] at hfold
        exact ⟨fun _ => ⟨hfold.1.symm, hfold.2.symm⟩, fun hne _ => absurd hc1 hne⟩
      · rw [hf] at hfold
        simp only [Option.some.injEq, Prod.mk.injEq] at hfold
        exact ⟨fun heq => absurd heq hc1, fun _ _ => ⟨hfold.2.symm, hfold.1.symm⟩⟩
      · simp only [Option.some.injEq, Prod.mk.injEq] at hfold
        exact ⟨fun heq => absurd heq hc1, fun _ heq => absurd heq hc2⟩
    · rcases hfimp with h0 | hne
      · exact fun hfee => absurd hfee h0
      · exact fun _ => hne

/-- C6 witness: the theorem applied to a concrete exchange row whose fee
currency matches the source symbol. -/
theorem investmentExchange_fee_folding_witness :
    mkInvestmentExchange c6Row = some c6T ∧
    (c6T.original_fee_currency = c6T.from_symbol ∨
     c6T.original_fee_currency = c6T.to_symbol) ∧
    c6T.from_number_of_shares ≤ 0 ∧ c6T.to_number_of_shares ≥ 0 :=
  have hmk : mkInvestmentExchange c6Row = some c6T := by
    have hfold : foldExchangeFee c6Row = some (-9, 5) := by
      norm_num [foldExchangeFee, c6Row]
    have hcond : (baseValidate c6Row.toTransactionRowBase &&
        (investmentExchangeOf c6Row (-9) 5).validate) = true := by
      norm_num [baseValidate, c6Row, investmentExchangeOf,
        InvestmentExchangeTransaction.validate, strTruthy]
      exact ⟨by decide, by decide⟩
    unfold mkInvestmentExchange
    rw [hfold]
    have hstep : (if (baseValidate c6Row.toTransactionRowBase &&
          (investmentExchangeOf c6Row (-9) 5).validate) = true then
        some (investmentExchangeOf c6Row (-9) 5)
      else none) = some c6T := by
      rw [if_pos hcond]
      norm_num [investmentExchangeOf, c6Row, c6T]
    exact hstep
  ⟨hmk, (investmentExchange_fee_folding c6Row c6T hmk).1,
   (investmentExchange_fee_folding c6Row c6T hmk).2.2.1,
   (investmentExchange_fee_folding c6Row c6T hmk).2.2.2.1⟩

/-- C7: the stored investment object type decodes through a closed mapping
(`0 → "Investment"`, `1 → "Forex/Crypto"`); any other stored value fails
with `InvalidEnumeration` immediately, before the holding's other
validation checks run, and no default type is produced; `c7BadRow` (type 7
and a null symbol that would itself fail validation) fails with
`InvalidEnumeration`. -/
theorem holding_object_type_closed_enum (row : InvestmentHoldingRow) :
    (row.investment_object_type_raw ≠ some 0 →
     row.investment_object_type_raw ≠ some 1 →
     mkInvestmentHolding row = .error .invalidEnumeration) ∧
    (∀ h, mkInvestmentHolding row = .ok h →
      (row.investment_object_type_raw = some 0 ∧
       h.investment_object_type = "Investment") ∨
      (row.investment_object_type_raw = some 1 ∧
       h.investment_object_type = "Forex/Crypto")) ∧
    convertInvestmentObjectType (some 0) = .ok "Investment" ∧
    convertInvestmentObjectType (some 1) = .ok "Forex/Crypto" ∧
    mkInvestmentHolding c7BadRow = .error .invalidEnumeration := by
  refine ⟨?_, ?_, by simp [convertInvestmentObjectType],
    by simp [convertInvestmentObjectType],
    by simp [mkInvestmentHolding, convertInvestmentObjectType, c7BadRow]⟩
  · intro h0 h1
    have hconv : convertInvestmentObjectType row.investment_object_type_raw =
        .error .invalidEnumeration := by
      unfold convertInvestmentObjectType
      rw [if_neg]
      rintro (hc | hc)
      exacts [h0 hc, h1 hc]
    simp [mkInvestmentHolding, hconv]
  · intro h hk
    unfold mkInvestmentHolding at hk
    rcases hconv : convertInvestmentObjectType row.investment_object_type_raw
      with e | ty
    · rw [hconv] at hk
      have hk' : (Except.error e : Except DecodeError InvestmentHolding) = .ok h := hk
      exact Except.noConfusion hk'
    · rw [hconv] at hk
      have hk' : (if (investmentHoldingOf row ty).validate = true then
          (Except.ok (investmentHoldingOf row ty) :
            Except DecodeError InvestmentHolding)
        else .error .invariantViolation) = .ok h := hk
      split at hk'
      · obtain rfl : investmentHoldingOf row ty = h := Except.ok.inj hk'
        unfold convertInvestmentObjectType at hconv
        split_ifs at hconv with hc hone
        all_goals first
          | exact Except.noConfusion hconv
          | exact Or.inr ⟨hone, (Except.ok.inj hconv).symm⟩
          | (rcases hc with hc0 | hc1
             · exact Or.inl ⟨hc0, (Except.ok.inj hconv).symm⟩
             · exact absurd hc1 hone)
      · exact Except.noConfusion hk'

/-- C7 witness: the theorem applied to a holding row with object type 3
and otherwise valid fields. -/
theorem holding_object_type_closed_enum_witness :
    mkInvestmentHolding c7BadRow2 = .error .invalidEnumeration :=
  (holding_object_type_closed_enum c7BadRow2).1
    (by simp [c7BadRow2, c7BadRow]) (by simp [c7BadRow2, c7BadRow])

/-- C4 counterexample: `c4CexRow` has no holding, satisfies every other
TransferWithdraw invariant, and satisfies both of the claim's tolerant
cross-checks (its `amount` differs from `original_amount` by 0.0005, well
within 0.001, and its FX check holds exactly), yet construction fails:
the source compares `amount` with `original_amount` by exact equality. -/
theorem transferWithdraw_tolerant_claim_counterexample :
    (c4CexRow.investment_holding = none ∧
     baseValidate c4CexRow.toTransactionRowBase = true ∧
     c4CexRow.account.isSome = true ∧
     c4CexRow.recipient_account.isSome = true ∧
     c4CexRow.recipient_transaction.isSome = true ∧
     c4CexRow.original_currency.isSome = true ∧
     c4CexRow.recipient_currency.isSome = true ∧
     c4CexRow.amount < 0 ∧ c4CexRow.original_amount < 0 ∧
     fixAbs c4CexRow.recipient_amount > 0 ∧
     c4CexRow.original_exchange_rate ≠ 0 ∧
     |c4CexRow.amount - c4CexRow.original_amount| ≤ ABS_TOLERANCE ∧
     |c4CexRow.original_amount -
        -(fixAbs c4CexRow.recipient_amount) / c4CexRow.original_exchange_rate| ≤
       ABS_TOLERANCE) ∧
    mkTransferWithdraw c4CexRow = none := by
  constructor
  · have habs : |(-2001/2000 : ℚ) - -1| = 1/2000 := by
      rw [show (-2001/2000 : ℚ) - -1 = -(1/2000) by norm_num, abs_neg,
        abs_of_pos (by norm_num : (0 : ℚ) < 1/2000)]
    have habs1 : |(-1 : ℚ)| = 1 := by norm_num [abs_of_nonpos]
    have habs2 : |(1 : ℚ)/2000| = 1/2000 := abs_of_pos (by norm_num)
    norm_num [c4CexRow, baseValidate, fixAbs, ABS_TOLERANCE, habs, habs1, habs2]
  · unfold mkTransferWithdraw
    rw [ifBool_some_eq_none]
    norm_num [transferWithdrawOf, c4CexRow,
      TransferWithdrawTransaction.validate, baseValidate, fixAbs, approxAbs,
      ABS_TOLERANCE]

/-- C4 (amended): for a TransferWithdraw row with no investment holding, a
nonzero exchange rate (a zero rate makes the `Decimal` division raise) and
all other invariants satisfied, construction succeeds if and only if
`amount` equals `original_amount` EXACTLY and the FX cross-check holds
within 0.001 — the amount-vs-original_amount check is exact equality, not
tolerant equality. -/
theorem transferWithdraw_noHolding_success_iff (row : TransferWithdrawRow)
    (hbase : baseValidate row.toTransactionRowBase = true)
    (hacc : row.account.isSome = true)
    (hracc : row.recipient_account.isSome = true)
    (hrtx : row.recipient_transaction.isSome = true)
    (hocur : row.original_currency.isSome = true)
    (hrcur : row.recipient_currency.isSome = true)
    (hhold : row.investment_holding = none)
    (hamt : row.amount < 0)
    (horig : row.original_amount < 0)
    (hrec : fixAbs row.recipient_amount > 0)
    (hrate : row.original_exchange_rate ≠ 0) :
    Option.isSome (mkTransferWithdraw row) = true ↔
      (row.amount = row.original_amount ∧
       |row.original_amount -
          -(fixAbs row.recipient_amount) / row.original_exchange_rate| ≤
         ABS_TOLERANCE) := by
  unfold mkTransferWithdraw
  rw [ifBool_some_isSome]
  unfold TransferWithdrawTransaction.validate
  simp only [transferWithdrawOf, hhold, approxAbs, Bool.and_eq_true,
    decide_eq_true_eq]
  constructor
  · intro h
    exact ⟨by tauto, by tauto⟩
  · intro h
    obtain ⟨h1, h2⟩ := h
    tauto

/-- C4 witness: the amended theorem applied to `c4OkRow`, where the exact
equality holds and construction succeeds. -/
theorem transferWithdraw_noHolding_success_iff_witness :
    Option.isSome (mkTransferWithdraw c4OkRow) = true ↔
      (c4OkRow.amount = c4OkRow.original_amount ∧
       |c4OkRow.original_amount -
          -(fixAbs c4OkRow.recipient_amount) / c4OkRow.original_exchange_rate| ≤
         ABS_TOLERANCE) :=
  transferWithdraw_noHolding_success_iff c4OkRow (by decide) (by decide)
    (by decide) (by decide) (by decide) (by decide) (by decide)
    (by norm_num [c4OkRow, c4CexRow]) (by norm_num [c4OkRow, c4CexRow])
    (by norm_num [c4OkRow, c4CexRow, fixAbs])
    (by norm_num [c4OkRow, c4CexRow])

end MoneywizApi
